import Mathlib

/-!
Shallow embedding of `src/main.py` (a FastAPI + Selenium page-fetching
service) and proofs about its request-handling behaviour.

The program has three routes:
  * `GET /?url=...`  (`fetch_page`): validates `url`, opens a remote Chrome
    WebDriver session against `SELENIUM_HUB_URL`, navigates, waits for the
    `body` element, returns the page source, and always quits the driver in
    a `finally` block;
  * `GET /health` (`health_check`): a constant payload;
  * `GET /info`: a constant payload (not needed by any claim).

The remote Selenium hub is external, so its behaviour on each call is
modelled by an oracle (`RemoteEnv`) saying whether session creation
succeeds and which Selenium exception, if any, each subsequent driver
operation raises.  The handler itself is translated statement by statement.
-/

namespace SelProxy

/-- Embedding of Python's `str.startswith(pre)` as a prefix test on the
character sequence of the string. -/
def startswith (s pre : String) : Bool :=
  List.isPrefixOf pre.toList s.toList

/-- The Selenium exception classes distinguished by the `except` clauses of
`fetch_page` (`src/main.py:96-106`).  In Selenium, `TimeoutException` is a
subclass of `WebDriverException`; since the `except TimeoutException` clause
comes first, the three classes act as disjoint cases, which the inductive
mirrors.  `otherException` stands for any exception that is neither. -/
inductive SeleniumError where
  | timeoutException
  | webDriverException
  | otherException
deriving DecidableEq, Repr

/-- `SELENIUM_HUB_URL = os.getenv("SELENIUM_HUB_URL", "http://localhost:4444/wd/hub")`
(`src/main.py:22`): the configured remote endpoint address, with its default. -/
def SELENIUM_HUB_URL (envVar : Option String) : String :=
  match envVar with
  | some v => v
  | none => "http://localhost:4444/wd/hub"

/-- Oracle for one request's interaction with the external world: the
`SELENIUM_HUB_URL` environment variable, whether each of the two remote
calls inside `create_driver`'s `try` succeeds (`webdriver.Remote` session
creation, then `driver.set_page_load_timeout(30)` — a further remote
command that can fail after the session already exists), which exception
(if any) `driver.get`, `wait.until` and `driver.page_source` raise, the
page source returned on success, and whether `driver.quit()` raises during
teardown. -/
structure RemoteEnv where
  hubEnvVar : Option String
  remoteOk : Bool
  setTimeoutOk : Bool
  navError : Option SeleniumError
  waitError : Option SeleniumError
  readError : Option SeleniumError
  pageSource : String
  quitFails : Bool
deriving DecidableEq, Repr

/-- The state of a created remote WebDriver that the claims observe: the
page-load timeout installed by `driver.set_page_load_timeout(30)`
(`src/main.py:54`). -/
structure Driver where
  pageLoadTimeout : Nat
deriving DecidableEq, Repr

/-- `create_driver` (`src/main.py:24-58`).  Its `try` spans two remote
calls: `driver = webdriver.Remote(...)` (`src/main.py:49-53`), which opens
the session, and `driver.set_page_load_timeout(30)` (`src/main.py:54`), a
further remote command issued on the already-open session.  An exception
from either is caught and re-raised as
`HTTPException(500, "Failed to connect to remote browser at " + SELENIUM_HUB_URL)`,
modelled as the `Except.error` carrying that status and detail.  The second
component counts the sessions opened during the call: if `webdriver.Remote`
succeeded but `set_page_load_timeout` then raised, a session exists even
though `create_driver` fails and never hands it to the caller. -/
def create_driver (env : RemoteEnv) : Except (Nat × String) Driver × Nat :=
  if env.remoteOk then
    if env.setTimeoutOk then
      (Except.ok { pageLoadTimeout := 30 }, 1)
    else
      (Except.error
        (500, "Failed to connect to remote browser at " ++ SELENIUM_HUB_URL env.hubEnvVar), 1)
  else
    (Except.error
      (500, "Failed to connect to remote browser at " ++ SELENIUM_HUB_URL env.hubEnvVar), 0)

/-- An exception propagating out of the `try` block of `fetch_page`: either
the `fastapi.HTTPException` raised by `create_driver`, or a Selenium
exception from `driver.get` / `wait.until` / `driver.page_source`. -/
inductive PyExc where
  | httpException (status : Nat) (detail : String)
  | seleniumExc (e : SeleniumError)
deriving DecidableEq, Repr

/-- The handler's result as seen by the HTTP layer: a 200 `HTMLResponse`
with the page source, or a raised `HTTPException` with a status code and a
detail string. -/
inductive FetchOutcome where
  | success (html : String)
  | httpError (status : Nat) (detail : String)
deriving DecidableEq, Repr

/-- HTTP status code of an outcome (an `HTMLResponse` is a 200). -/
def FetchOutcome.statusCode : FetchOutcome → Nat
  | .success _ => 200
  | .httpError s _ => s

/-- Detail string of a raised `HTTPException` (empty for a success body). -/
def FetchOutcome.detail : FetchOutcome → String
  | .success _ => ""
  | .httpError _ d => d

/-- Observable side effects of one request on the remote backend:
how many times `webdriver.Remote` session creation was attempted, how many
sessions were actually opened, how many `driver.quit()` calls were made, the
page-load timeout in force during `driver.get` (if navigation was reached),
and the timeout passed to `WebDriverWait` (if the wait was reached). -/
structure Trace where
  createAttempts : Nat
  opens : Nat
  quitAttempts : Nat
  navTimeoutApplied : Option Nat
  waitTimeoutUsed : Option Nat
deriving DecidableEq, Repr

/-- The trace of a request that never touched the remote backend. -/
def Trace.empty : Trace :=
  { createAttempts := 0, opens := 0, quitAttempts := 0
    navTimeoutApplied := none, waitTimeoutUsed := none }

/-- The `try` block of `fetch_page` (`src/main.py:79-94`):
`driver = create_driver()`, then `driver.get(url)` (bounded by the driver's
page-load timeout), then `WebDriverWait(driver, 10)` + `wait.until(...)`,
then `page_source`.  Returns the block's result (page source or raised
exception), the value of the `driver` local when the `finally` clause runs,
and the trace of remote calls made (quit attempts are counted separately by
`finally_close`).  When `create_driver` raises, `fetch_page`'s `driver`
local keeps its initial `None` — even if `webdriver.Remote` had already
opened a session before `set_page_load_timeout` raised, so that session is
invisible to the `finally` block. -/
def try_block (env : RemoteEnv) : Except PyExc String × Option Driver × Trace :=
  match create_driver env with
  | (Except.error sd, opened) =>
      (Except.error (PyExc.httpException sd.1 sd.2), none,
        { createAttempts := 1, opens := opened, quitAttempts := 0
          navTimeoutApplied := none, waitTimeoutUsed := none })
  | (Except.ok driver, _) =>
      match env.navError with
      | some e =>
          (Except.error (PyExc.seleniumExc e), some driver,
            { createAttempts := 1, opens := 1, quitAttempts := 0
              navTimeoutApplied := some driver.pageLoadTimeout, waitTimeoutUsed := none })
      | none =>
          match env.waitError with
          | some e =>
              (Except.error (PyExc.seleniumExc e), some driver,
                { createAttempts := 1, opens := 1, quitAttempts := 0
                  navTimeoutApplied := some driver.pageLoadTimeout, waitTimeoutUsed := some 10 })
          | none =>
              match env.readError with
              | some e =>
                  (Except.error (PyExc.seleniumExc e), some driver,
                    { createAttempts := 1, opens := 1, quitAttempts := 0
                      navTimeoutApplied := some driver.pageLoadTimeout, waitTimeoutUsed := some 10 })
              | none =>
                  (Except.ok env.pageSource, some driver,
                    { createAttempts := 1, opens := 1, quitAttempts := 0
                      navTimeoutApplied := some driver.pageLoadTimeout, waitTimeoutUsed := some 10 })

/-- The `except` clauses of `fetch_page` (`src/main.py:96-106`), in source
order: `TimeoutException` → 408 "Page load timeout"; `WebDriverException` →
500 "Browser error occurred"; `Exception` → 500 "Internal server error".
`fastapi.HTTPException` is a subclass of `Exception` and of neither Selenium
class, so the `HTTPException(500, "Failed to connect to remote browser at ...")`
raised by `create_driver` is caught by the blanket clause and replaced by
500 "Internal server error". -/
def except_clauses : PyExc → FetchOutcome
  | PyExc.seleniumExc SeleniumError.timeoutException =>
      FetchOutcome.httpError 408 "Page load timeout"
  | PyExc.seleniumExc SeleniumError.webDriverException =>
      FetchOutcome.httpError 500 "Browser error occurred"
  | PyExc.seleniumExc SeleniumError.otherException =>
      FetchOutcome.httpError 500 "Internal server error"
  | PyExc.httpException _ _ =>
      FetchOutcome.httpError 500 "Internal server error"

/-- `driver.quit()` (`src/main.py:112`): succeeds or raises, as the oracle
dictates. -/
def driver_quit (env : RemoteEnv) : Except Unit Unit :=
  if env.quitFails then Except.error () else Except.ok ()

/-- The `finally` block of `fetch_page` (`src/main.py:108-114`): if the
`driver` local is set, attempt `driver.quit()`, and swallow (only log) any
exception it raises; in every case the block leaves the handler's pending
outcome unchanged.  Returns the outcome and the number of quit attempts. -/
def finally_close (env : RemoteEnv) (driver : Option Driver) (outcome : FetchOutcome) :
    FetchOutcome × Nat :=
  match driver with
  | none => (outcome, 0)
  | some _ =>
      match driver_quit env with
      | Except.ok _ => (outcome, 1)
      | Except.error _ => (outcome, 1)

/-- The body of the `fetch_page` handler (`src/main.py:61-114`) for a given
`url` string: the two validation checks, then the `try`/`except`/`finally`
composition above.  Returns the outcome and the request's remote-call trace. -/
def fetch_page (url : String) (env : RemoteEnv) : FetchOutcome × Trace :=
  if url = "" then
    (FetchOutcome.httpError 400 "URL parameter is required", Trace.empty)
  else if !(startswith url "http://" || startswith url "https://") then
    (FetchOutcome.httpError 400 "URL must start with http:// or https://", Trace.empty)
  else
    let r := try_block env
    let outcome :=
      match r.1 with
      | Except.ok page => FetchOutcome.success page
      | Except.error e => except_clauses e
    let closed := finally_close env r.2.1 outcome
    (closed.1, { r.2.2 with quitAttempts := closed.2 })

/-- A response of the `GET /` route as a whole: either FastAPI's request
validation rejected the request before the handler ran, or the handler's
outcome. -/
inductive RouteResponse where
  | validationError (status : Nat)
  | fromHandler (o : FetchOutcome)
deriving DecidableEq, Repr

/-- HTTP status code of a route response. -/
def RouteResponse.statusCode : RouteResponse → Nat
  | .validationError s => s
  | .fromHandler o => o.statusCode

/-- The `GET /` route shell.  The handler signature
`url: str = Query(...)` (`src/main.py:61`) declares `url` as a required
`str` query parameter, so FastAPI's request validation rejects a request
with no `url` parameter with an HTTP 422 Unprocessable Entity response
before `fetch_page` runs (the framework's fixed behaviour for a
`RequestValidationError`); the handler is only ever invoked with an actual
string, which may be empty (`?url=`). -/
def route_fetch (url : Option String) (env : RemoteEnv) : RouteResponse × Trace :=
  match url with
  | none => (RouteResponse.validationError 422, Trace.empty)
  | some u =>
      let r := fetch_page u env
      (RouteResponse.fromHandler r.1, r.2)

/-- `health_check` (`src/main.py:116-119`): the constant JSON payload
`{"status": "healthy", "service": "selenium-scraper"}`, returned with
HTTP 200. -/
def health_check : Nat × List (String × String) :=
  (200, [("status", "healthy"), ("service", "selenium-scraper")])

/-- The `GET /health` route: returns `health_check`'s constant payload and
makes no call to the remote backend, whatever the state of the oracle. -/
def route_health (_env : RemoteEnv) : (Nat × List (String × String)) × Trace :=
  (health_check, Trace.empty)

/-- A concrete oracle in which everything succeeds, used to instantiate
universally quantified theorems at concrete inputs. -/
def env0 : RemoteEnv :=
  { hubEnvVar := none, remoteOk := true, setTimeoutOk := true, navError := none
    waitError := none, readError := none
    pageSource := "<html><body>Hello</body></html>", quitFails := false }

/-- A concrete oracle in which `webdriver.Remote` session creation fails. -/
def envCreateFail : RemoteEnv :=
  { env0 with remoteOk := false }

/-- A concrete oracle in which `webdriver.Remote` succeeds but the
subsequent `driver.set_page_load_timeout(30)` call raises. -/
def envSetTimeoutFail : RemoteEnv :=
  { env0 with setTimeoutOk := false }

/-- A concrete oracle in which the readiness wait times out. -/
def envWaitTimeout : RemoteEnv :=
  { env0 with waitError := some SeleniumError.timeoutException }

/-- A concrete oracle in which navigation itself times out. -/
def envNavTimeout : RemoteEnv :=
  { env0 with navError := some SeleniumError.timeoutException }

/-- The `finally` block never changes the pending outcome, and attempts one
quit exactly when the `driver` local is set, whether or not `driver.quit()`
raises. -/
theorem finally_close_eq (env : RemoteEnv) (d : Option Driver) (o : FetchOutcome) :
    finally_close env d o = (o, match d with | none => 0 | some _ => 1) := by
  unfold finally_close driver_quit
  cases d with
  | none => rfl
  | some dr => cases h : env.quitFails <;> simp [h]

/-- A url accepted by the scheme check is not the empty string. -/
theorem valid_url_ne_empty (url : String)
    (hv : (startswith url "http://" || startswith url "https://") = true) : url ≠ "" := by
  intro he
  subst he
  exact absurd hv (by decide)

/-- C1 counterexample: a `GET /` request that supplies no `url` query
parameter at all is answered with HTTP 422 (FastAPI request validation for
the required `Query(...)` parameter), not 400 as the claim states. -/
theorem C1_counterexample :
    (route_fetch none env0).1.statusCode = 422 ∧
    ¬ (route_fetch none env0).1.statusCode = 400 := by
  exact ⟨rfl, by decide⟩

/-- C1 (amended): a request with no `url` parameter is rejected by the
framework's request validation with HTTP 422 before the handler runs; the
handler's own 400 response with detail "URL parameter is required" is
produced exactly when the supplied `url` value is the empty string. -/
theorem C1_missing_url (env : RemoteEnv) :
    (route_fetch none env).1 = RouteResponse.validationError 422 ∧
    (route_fetch (some "") env).1 =
      RouteResponse.fromHandler (FetchOutcome.httpError 400 "URL parameter is required") := by
  exact ⟨rfl, rfl⟩

/-- C2: evaluating the handler where session creation fails (valid url,
`createOk = false`): the response is 500 with detail "Internal server
error", and the configured remote endpoint address does not occur in that
detail — the `HTTPException(500, "Failed to connect to remote browser at ...")`
raised by `create_driver` is caught by the handler's blanket
`except Exception` clause and replaced. -/
theorem C2_code_eval :
    (fetch_page "http://example.com" envCreateFail).1 =
      FetchOutcome.httpError 500 "Internal server error" ∧
    ¬ List.IsInfix (SELENIUM_HUB_URL envCreateFail.hubEnvVar).toList
        ((fetch_page "http://example.com" envCreateFail).1.detail).toList := by
  exact ⟨by decide, by decide⟩

/-- C3: every fetch request whose `url` does not start with `http://` or
`https://` gets HTTP 400, and (when the url is non-empty, so the first
validation check does not fire instead) the detail is
"URL must start with http:// or https://". -/
theorem C3_scheme_validation (url : String) (env : RemoteEnv)
    (h : (startswith url "http://" || startswith url "https://") = false) :
    (fetch_page url env).1.statusCode = 400 ∧
    (url ≠ "" →
      (fetch_page url env).1 =
        FetchOutcome.httpError 400 "URL must start with http:// or https://") := by
  by_cases hu : url = ""
  · subst hu
    exact ⟨rfl, fun hne => absurd rfl hne⟩
  · constructor
    · simp [fetch_page, hu, h, FetchOutcome.statusCode]
    · intro _
      simp [fetch_page, hu, h]

/-- C3 witness at `url = "ftp://example.com"`. -/
theorem C3_witness :
    ((startswith "ftp://example.com" "http://" || startswith "ftp://example.com" "https://") = false) ∧
    ((fetch_page "ftp://example.com" env0).1.statusCode = 400 ∧
      ("ftp://example.com" ≠ "" →
        (fetch_page "ftp://example.com" env0).1 =
          FetchOutcome.httpError 400 "URL must start with http:// or https://")) :=
  ⟨by decide, C3_scheme_validation "ftp://example.com" env0 (by decide)⟩

/-- C7: `GET /health` always answers 200 with the fixed payload
`{"status": "healthy", "service": "selenium-scraper"}`, performs no remote
call (empty trace), and is independent of the remote oracle's state. -/
theorem C7_health (env₁ env₂ : RemoteEnv) :
    route_health env₁ =
      ((200, [("status", "healthy"), ("service", "selenium-scraper")]), Trace.empty) ∧
    (route_health env₁).2.createAttempts = 0 ∧
    (route_health env₁).2.opens = 0 ∧
    route_health env₁ = route_health env₂ := by
  exact ⟨rfl, rfl, rfl, rfl⟩

/-- C4: if the readiness wait (`WebDriverWait(driver, 10).until(presence of body)`)
times out, the `TimeoutException` is caught and the response is HTTP 408
(detail "Page load timeout"). -/
theorem C4_readiness_timeout (url : String) (env : RemoteEnv)
    (hv : (startswith url "http://" || startswith url "https://") = true)
    (hro : env.remoteOk = true)
    (hst : env.setTimeoutOk = true)
    (hn : env.navError = none)
    (hw : env.waitError = some SeleniumError.timeoutException) :
    (fetch_page url env).1 = FetchOutcome.httpError 408 "Page load timeout" := by
  have hu : url ≠ "" := valid_url_ne_empty url hv
  simp [fetch_page, hu, hv, try_block, create_driver, hro, hst, hn, hw, except_clauses,
    finally_close_eq]

/-- C4 witness: a concrete request whose readiness wait expires gets 408. -/
theorem C4_witness :
    (fetch_page "http://example.com" envWaitTimeout).1 =
      FetchOutcome.httpError 408 "Page load timeout" :=
  C4_readiness_timeout "http://example.com" envWaitTimeout (by decide) (by decide)
    (by decide) (by decide) (by decide)

/-- C5 counterexample: a request failing URL validation opens no Browser
Session at all (and attempts no close), refuting "exactly one Browser
Session is opened for every request regardless of outcome, including
validation failure". -/
theorem C5_counterexample :
    (fetch_page "notaurl" env0).2.opens = 0 ∧
    ¬ (fetch_page "notaurl" env0).2.opens = 1 ∧
    (fetch_page "notaurl" env0).2.quitAttempts = 0 := by
  exact ⟨rfl, by decide, rfl⟩

/-- C5 (amended): every fetch request opens at most one Browser Session and
never attempts more closes than it opened sessions.  When the url passes
validation and both remote calls of `create_driver` succeed, exactly one
session is opened and exactly one close is attempted for it.  When
`webdriver.Remote` succeeds but `driver.set_page_load_timeout(30)` then
raises, one session is opened yet no close is attempted — the handler's
`driver` local is still `None` in the `finally` block, so that session
leaks.  When validation fails or `webdriver.Remote` fails, no session is
opened and no close is attempted. -/
theorem C5_session_discipline (url : String) (env : RemoteEnv) :
    (fetch_page url env).2.opens ≤ 1 ∧
    (fetch_page url env).2.quitAttempts ≤ (fetch_page url env).2.opens ∧
    (((startswith url "http://" || startswith url "https://") = true ∧
        env.remoteOk = true ∧ env.setTimeoutOk = true) →
      ((fetch_page url env).2.opens = 1 ∧ (fetch_page url env).2.quitAttempts = 1)) ∧
    (((startswith url "http://" || startswith url "https://") = true ∧
        env.remoteOk = true ∧ env.setTimeoutOk = false) →
      ((fetch_page url env).2.opens = 1 ∧ (fetch_page url env).2.quitAttempts = 0)) ∧
    (((startswith url "http://" || startswith url "https://") = false ∨ env.remoteOk = false) →
      ((fetch_page url env).2.opens = 0 ∧ (fetch_page url env).2.quitAttempts = 0)) := by
  by_cases hu : url = ""
  · subst hu
    refine ⟨by simp [fetch_page, Trace.empty], by simp [fetch_page, Trace.empty],
      ?_, ?_, ?_⟩
    · rintro ⟨h1, -⟩
      exact absurd h1 (by decide)
    · rintro ⟨h1, -⟩
      exact absurd h1 (by decide)
    · intro _
      exact ⟨rfl, rfl⟩
  · by_cases hv : (startswith url "http://" || startswith url "https://") = true
    · cases hro : env.remoteOk <;> cases hst : env.setTimeoutOk <;>
        cases hn : env.navError <;> cases hw : env.waitError <;> cases hr : env.readError <;>
          simp [fetch_page, hu, hv, try_block, create_driver, hro, hst, hn, hw, hr,
            finally_close_eq]
    · rw [Bool.not_eq_true] at hv
      simp [fetch_page, hu, hv, Trace.empty]

/-- C5 witness: on a validly-formed url with a fully reachable hub, exactly
one session is opened and exactly one close attempted; when
`set_page_load_timeout` raises after `webdriver.Remote` succeeded, one
session is opened and no close is attempted. -/
theorem C5_witness :
    (((startswith "http://example.com" "http://" || startswith "http://example.com" "https://") = true ∧
        env0.remoteOk = true ∧ env0.setTimeoutOk = true) ∧
      ((fetch_page "http://example.com" env0).2.opens = 1 ∧
        (fetch_page "http://example.com" env0).2.quitAttempts = 1)) ∧
    ((fetch_page "http://example.com" envSetTimeoutFail).2.opens = 1 ∧
      (fetch_page "http://example.com" envSetTimeoutFail).2.quitAttempts = 0) :=
  ⟨⟨by decide, (C5_session_discipline "http://example.com" env0).2.2.1 (by decide)⟩,
    (C5_session_discipline "http://example.com" envSetTimeoutFail).2.2.2.1 (by decide)⟩

/-- C6: a failure of `driver.quit()` during teardown is swallowed by the
`finally` block's `try`/`except` — the pending outcome always survives the
close, and the handler's entire observable result (response and trace) is
the same whether or not quit fails. -/
theorem C6_quit_failure_invisible :
    (∀ (env : RemoteEnv) (d : Option Driver) (o : FetchOutcome),
      (finally_close env d o).1 = o) ∧
    (∀ (url : String) (env : RemoteEnv) (b₁ b₂ : Bool),
      fetch_page url { env with quitFails := b₁ } =
        fetch_page url { env with quitFails := b₂ }) := by
  constructor
  · intro env d o
    rw [finally_close_eq]
  · intro url env b₁ b₂
    by_cases hu : url = ""
    · simp [fetch_page, hu]
    · by_cases hv : (startswith url "http://" || startswith url "https://") = true
      · cases hro : env.remoteOk <;> cases hst : env.setTimeoutOk <;>
          cases hn : env.navError <;> cases hw : env.waitError <;> cases hr : env.readError <;>
            simp [fetch_page, hu, hv, try_block, create_driver, hro, hst, hn, hw, hr,
              finally_close_eq]
      · rw [Bool.not_eq_true] at hv
        simp [fetch_page, hu, hv]

/-- C8: the two blocking remote operations run under fixed timeouts — any
driver returned by `create_driver` has its page-load timeout set to 30,
navigation (whenever attempted) runs under that timeout 30, and the
readiness wait (whenever attempted) is constructed with timeout 10. -/
theorem C8_fixed_timeouts (url : String) (env : RemoteEnv) :
    ((fetch_page url env).2.navTimeoutApplied = none ∨
      (fetch_page url env).2.navTimeoutApplied = some 30) ∧
    ((fetch_page url env).2.waitTimeoutUsed = none ∨
      (fetch_page url env).2.waitTimeoutUsed = some 10) ∧
    (∀ d, (create_driver env).1 = Except.ok d → d.pageLoadTimeout = 30) := by
  have hcd : ∀ d, (create_driver env).1 = Except.ok d → d.pageLoadTimeout = 30 := by
    intro d hd
    cases hro : env.remoteOk <;> cases hst : env.setTimeoutOk <;>
      simp [create_driver, hro, hst] at hd
    rw [← hd]
  by_cases hu : url = ""
  · subst hu
    exact ⟨Or.inl rfl, Or.inl rfl, hcd⟩
  · by_cases hv : (startswith url "http://" || startswith url "https://") = true
    · cases hro : env.remoteOk <;> cases hst : env.setTimeoutOk <;>
        cases hn : env.navError <;> cases hw : env.waitError <;> cases hr : env.readError <;>
          simp [fetch_page, hu, hv, try_block, create_driver, hro, hst, hn, hw, hr,
            finally_close_eq, hcd]
    · rw [Bool.not_eq_true] at hv
      refine ⟨?_, ?_, hcd⟩ <;> simp [fetch_page, hu, hv, Trace.empty]

/-- C8 witness at a concrete successful request. -/
theorem C8_witness :
    ((fetch_page "http://example.com" env0).2.navTimeoutApplied = none ∨
      (fetch_page "http://example.com" env0).2.navTimeoutApplied = some 30) ∧
    ((fetch_page "http://example.com" env0).2.waitTimeoutUsed = none ∨
      (fetch_page "http://example.com" env0).2.waitTimeoutUsed = some 10) ∧
    (∀ d, (create_driver env0).1 = Except.ok d → d.pageLoadTimeout = 30) :=
  C8_fixed_timeouts "http://example.com" env0

/-- C9: a fetch request that fails URL validation (empty url, or url not
starting with `http://` or `https://`) never contacts the remote endpoint:
no session creation is attempted and no session is opened.  A request with
no url parameter at all is likewise rejected by the framework before any
remote call. -/
theorem C9_no_remote_on_validation_failure (url : String) (env : RemoteEnv)
    (h : url = "" ∨ (startswith url "http://" || startswith url "https://") = false) :
    ((fetch_page url env).2.createAttempts = 0 ∧ (fetch_page url env).2.opens = 0) ∧
    (route_fetch none env).2.createAttempts = 0 := by
  refine ⟨?_, rfl⟩
  rcases h with h | h
  · subst h
    exact ⟨rfl, rfl⟩
  · by_cases hu : url = ""
    · subst hu
      exact ⟨rfl, rfl⟩
    · constructor <;> simp [fetch_page, hu, h, Trace.empty]

/-- C9 witness at `url = "ftp://example.com"`. -/
theorem C9_witness :
    ("ftp://example.com" = "" ∨
      (startswith "ftp://example.com" "http://" || startswith "ftp://example.com" "https://") = false) ∧
    (((fetch_page "ftp://example.com" env0).2.createAttempts = 0 ∧
        (fetch_page "ftp://example.com" env0).2.opens = 0) ∧
      (route_fetch none env0).2.createAttempts = 0) :=
  ⟨by decide, C9_no_remote_on_validation_failure "ftp://example.com" env0 (by decide)⟩

/-- C10: when navigation itself times out (`driver.get` raises
`TimeoutException` under the 30-unit page-load timeout), the response is
HTTP 408 with detail "Page load timeout" — exactly the response a
readiness-wait expiry produces, since the one `except TimeoutException`
clause handles both. -/
theorem C10_nav_timeout (url : String) (env : RemoteEnv)
    (hv : (startswith url "http://" || startswith url "https://") = true)
    (hro : env.remoteOk = true)
    (hst : env.setTimeoutOk = true)
    (hn : env.navError = some SeleniumError.timeoutException) :
    (fetch_page url env).1 = FetchOutcome.httpError 408 "Page load timeout" ∧
    (fetch_page url env).1 =
      (fetch_page url
        { env with navError := none, waitError := some SeleniumError.timeoutException }).1 := by
  have hu : url ≠ "" := valid_url_ne_empty url hv
  constructor <;>
    simp [fetch_page, hu, hv, try_block, create_driver, hro, hst, hn, except_clauses,
      finally_close_eq]

/-- C10 witness: a concrete request whose navigation times out gets 408
"Page load timeout", matching the readiness-expiry response. -/
theorem C10_witness :
    (fetch_page "http://example.com" envNavTimeout).1 =
      FetchOutcome.httpError 408 "Page load timeout" ∧
    (fetch_page "http://example.com" envNavTimeout).1 =
      (fetch_page "http://example.com"
        { envNavTimeout with
            navError := none
            waitError := some SeleniumError.timeoutException }).1 :=
  C10_nav_timeout "http://example.com" envNavTimeout (by decide) (by decide) (by decide)
    (by decide)

end SelProxy
